import Mathlib

/-!
Verification of the value-display pipeline, the gauge visualization and the
raw InfluxQL query editor of a dashboarding front-end library.

Modelling conventions:
* JavaScript numbers are modelled as either `NaN` or an exact rational
  (`JSNum`); infinities do not arise in any property considered here.
* `Math.floor (Math.log x / Math.LN10)` is abstracted as an arbitrary
  function `flog : ℚ → ℤ`; no property proved below depends on its values.
* External library functions (lodash string/number conversion, the unit
  formatter registry, the scale calculator, value mappings, the color
  lookup and the jquery plotting call) are parameters gathered in
  `Externals` or passed explicitly; the code under verification never
  inspects their internals.
* A thrown exception is modelled as `Except.error` / `Option.none`.
-/

namespace Grafana

/-- A JavaScript number: `NaN` or a finite (rational) value. -/
inductive JSNum
  | nan
  | fin (q : ℚ)
deriving DecidableEq, Repr

/-- A raw, arbitrarily-typed JavaScript field value. -/
inductive JSValue
  | num (n : JSNum)
  | str (s : String)
  | boolean (b : Bool)
  | null
  | undefined
  | arr (elems : List JSValue)

/-- `_.isBoolean` -/
def JSValue.isBooleanVal : JSValue → Bool
  | JSValue.boolean _ => true
  | _ => false

mutual

/-- `_.toString`: strings unchanged, null/undefined become `''`, booleans
become `'true'`/`'false'`, numbers are printed by the (abstracted) number
printer, arrays are joined with commas. -/
def lodashToString (printNum : JSNum → String) : JSValue → String
  | JSValue.num n => printNum n
  | JSValue.str s => s
  | JSValue.boolean b => cond b "true" "false"
  | JSValue.null => ""
  | JSValue.undefined => ""
  | JSValue.arr xs => String.intercalate "," (lodashToStringList printNum xs)

def lodashToStringList (printNum : JSNum → String) : List JSValue → List String
  | [] => []
  | x :: xs => lodashToString printNum x :: lodashToStringList printNum xs

end

/-- Result of a unit format function from `getValueFormat` (the
`valueFormats` registry is external to the excerpt). -/
structure FormattedValue where
  text : String
  prefixText : Option String := none
  suffixText : Option String := none
deriving DecidableEq, Repr

/-- Modelled from the spec: the scale/threshold information computed by the
scale calculator (`getScaleCalculator`, not part of the excerpt) — the
threshold color for a numeric value. -/
structure ScaleInfo where
  color : Option String := none
deriving DecidableEq, Repr

/-- The display value: the text/numeric/prefix/suffix tuple produced by
formatting a raw field value, plus the spread scale information.
(`prefixText`/`suffixText` model the source fields `prefix`/`suffix`,
which are reserved words here.) -/
structure DisplayValue where
  text : String
  numeric : JSNum
  prefixText : Option String := none
  suffixText : Option String := none
  title : Option String := none
  color : Option String := none
deriving DecidableEq, Repr

/-- `DecimalInfo` from the display-value types. -/
structure DecimalInfo where
  decimals : ℚ
  scaledDecimals : Option ℚ
deriving DecidableEq, Repr

/-- A value mapping entry; its matching logic (`getMappedValue`) is
external to the excerpt, so the entry itself is opaque. -/
structure ValueMapping where
  id : Nat := 0
deriving DecidableEq, Repr

/-- The result of `getMappedValue`: only its `text` is consumed here. -/
structure MappedValue where
  text : String
deriving DecidableEq, Repr

/-- Field types from the data-frame types module. -/
inductive FieldType
  | time
  | number
  | string
  | boolean
  | other
deriving DecidableEq, Repr

/-- Modelled from the spec: the field configuration consulted by the
display pipeline (unit, decimals, mappings, no-value text), together with
representative unrelated fields (`min`, `max`, `title`) used to express
frame conditions. -/
structure FieldConfig where
  unit : Option String := none
  decimals : Option ℚ := none
  mappings : Option (List ValueMapping) := none
  noValue : Option String := none
  min : Option ℚ := none
  max : Option ℚ := none
  title : Option String := none
deriving DecidableEq, Repr

/-- A (partial) field: only the members read by the excerpt. -/
structure Field where
  name : Option String := none
  type : Option FieldType := none
  config : Option FieldConfig := none
deriving DecidableEq, Repr

/-- Theme type ('dark' is picked when no theme is given). -/
inductive ThemeType
  | dark
  | light
deriving DecidableEq, Repr

/-- The slice of the theme object read by the gauge. -/
structure GrafanaTheme where
  type : ThemeType
  colorDark8 : String := ""
  colorGray6 : String := ""
  fontFamilySansSerif : String := ""
deriving DecidableEq, Repr

/-- `DisplayProcessorOptions` -/
structure DisplayProcessorOptions where
  field : Option Field := none
  isUtc : Option Bool := none
  theme : Option GrafanaTheme := none
deriving DecidableEq, Repr

/-- `_.isEmpty(options)`: no own key is present. -/
def isEmptyOptions (o : DisplayProcessorOptions) : Bool :=
  o.field.isNone && o.isUtc.isNone && o.theme.isNone

/-- The external collaborators of the display pipeline, abstracted:
lodash's number printer and string-to-number conversion, the unit-format
registry, the scale calculator, the value-mapping matcher and the
floor-of-log10 primitive. -/
structure Externals where
  printNum : JSNum → String
  lodashToNumberStr : String → JSNum
  getValueFormat : String → ℚ → ℚ → Option ℚ → Option Bool → FormattedValue
  getScaleCalculator : Field → Option GrafanaTheme → JSNum → ScaleInfo
  getMappedValue : List ValueMapping → JSValue → Option MappedValue
  flog : ℚ → ℤ

/-- Truthiness of an optional string: present and non-empty. -/
def truthyStr : Option String → Bool
  | some s => !(s == "")
  | none => false

/-- `timeFormats`: the units valid for time fields. -/
def timeFormats (u : String) : Bool :=
  u == "dateTimeAsIso" || u == "dateTimeAsUS" || u == "dateTimeFromNow"

/-- The default date-time format constant from the datetime module (not
part of the excerpt; its exact value is irrelevant to every claim). -/
def DEFAULT_DATE_TIME_FORMAT : String := "YYYY-MM-DD HH:mm:ss"

/-- Lines 36-44 of the display processor: for time fields, a unit that is
neither a recognized date-time format nor a `time:...` custom format is
overwritten with the default date-time format. -/
def fixTimeUnit (cfg : FieldConfig) : FieldConfig :=
  if truthyStr cfg.unit && timeFormats (cfg.unit.getD "") then cfg
  else if truthyStr cfg.unit && (cfg.unit.getD "").startsWith "time:" then cfg
  else { cfg with unit := some ("time:" ++ DEFAULT_DATE_TIME_FORMAT) }

/-- The config object used by the processor: `field.config ?? {}`, with
the time-unit fix applied for time fields. -/
def configAfter (f : Field) : FieldConfig :=
  let cfg := f.config.getD {}
  if f.type = some FieldType.time then fixTimeUnit cfg else cfg

/-- The caller's field after `getDisplayProcessor` returns: the unit
mutation is visible on the caller's object only when `field.config`
existed (otherwise `field.config ?? {}` built a fresh object). -/
def fieldAfter (f : Field) : Field :=
  { f with config := f.config.map fun _ => configAfter f }

/-- `toNumber`: any number unchanged, `''`/null/undefined/arrays are NaN,
booleans are 1/0, anything else goes through `_.toNumber`. -/
def toNumber (lodashNum : String → JSNum) : JSValue → JSNum
  | JSValue.num n => n
  | JSValue.str s => if s = "" then JSNum.nan else lodashNum s
  | JSValue.null => JSNum.nan
  | JSValue.undefined => JSNum.nan
  | JSValue.arr _ => JSNum.nan
  | JSValue.boolean b => JSNum.fin (if b then 1 else 0)

/-- `toStringProcessor`: the fallback display processor. -/
def toStringProcessor (ext : Externals) (value : JSValue) : DisplayValue :=
  { text := lodashToString ext.printNum value
    numeric := toNumber ext.lodashToNumberStr value }

/-- `getDecimalsForValue`. `flog` abstracts
`fun x => Math.floor (Math.log x / Math.LN10)`; `value % 1 === 0` is
integrality (`value.den = 1`). -/
def getDecimalsForValue (flog : ℚ → ℤ) (value : ℚ)
    (decimalOverride : Option ℚ) : DecimalInfo :=
  match decimalOverride with
  | some d => { decimals := d, scaledDecimals := none }
  | none =>
    let dec0 : ℤ := -(flog value) + 1
    let magn : ℚ := (10 : ℚ) ^ (-dec0)
    let norm : ℚ := value / magn
    let sizeDec : ℚ × ℤ :=
      if norm < 3/2 then (1, dec0)
      else if norm < 3 then
        (if norm > 9/4 then (5/2, dec0 + 1) else (2, dec0))
      else if norm < 15/2 then (5, dec0)
      else (10, dec0)
    let size : ℚ := sizeDec.1 * magn
    let dec : ℤ := if value.den = 1 then 0 else sizeDec.2
    let decimals : ℚ := max 0 (dec : ℚ)
    let scaledDecimals : ℚ := decimals - (flog size : ℚ) + 2
    { decimals := decimals, scaledDecimals := some scaledDecimals }

/-- The per-call context captured by the processor closure. -/
structure DisplayContext where
  config : FieldConfig
  formatFunc : ℚ → ℚ → Option ℚ → Option Bool → FormattedValue
  scaleFunc : JSNum → ScaleInfo
  isUtc : Option Bool

/-- The closure context built by `getDisplayProcessor` from its options:
`getValueFormat (config.unit || 'none')` and
`getScaleCalculator (field, options.theme)` (the scale calculator sees the
field carrying the possibly-mutated config object). -/
def buildContext (ext : Externals) (o : DisplayProcessorOptions)
    (f : Field) : DisplayContext :=
  { config := configAfter f
    formatFunc := ext.getValueFormat
      (if truthyStr (configAfter f).unit then (configAfter f).unit.getD ""
       else "none")
    scaleFunc := ext.getScaleCalculator (fieldAfter f) o.theme
    isUtc := o.isUtc }

/-- Lines 50-71 of the processor body: initial text/numeric and the
value-mapping step, returning (text, numeric, shouldFormat). -/
def mappingStep (ext : Externals) (cfg : FieldConfig)
    (value : JSValue) : String × JSNum × Bool :=
  let text := lodashToString ext.printNum value
  let numeric := toNumber ext.lodashToNumberStr value
  match cfg.mappings with
  | some ms =>
    if ms.length > 0 then
      match ext.getMappedValue ms value with
      | some mv =>
        let v := toNumber ext.lodashToNumberStr (JSValue.str mv.text)
        (mv.text, (if v = JSNum.nan then numeric else v), false)
      | none => (text, numeric, true)
    else (text, numeric, true)
  | none => (text, numeric, true)

/-- Lines 74-88: formatting of a non-NaN numeric `q` (the raw value passed
to `getDecimalsForValue` coerces to the same number as `numeric` on this
guarded path), with a second mapping lookup on the formatted text. -/
def formatStep (ext : Externals) (ctx : DisplayContext)
    (q : ℚ) : String × Option String × Option String :=
  let di := getDecimalsForValue ext.flog q ctx.config.decimals
  let fv := ctx.formatFunc q di.decimals di.scaledDecimals ctx.isUtc
  let t :=
    match ctx.config.mappings with
    | some ms =>
      if ms.length > 0 then
        match ext.getMappedValue ms (JSValue.str fv.text) with
        | some mv => mv.text
        | none => fv.text
      else fv.text
    | none => fv.text
  (t, fv.prefixText, fv.suffixText)

/-- The text/prefix/suffix in scope at the scale-info return (line 91). -/
def textAtScaleCheck (ext : Externals) (ctx : DisplayContext)
    (value : JSValue) : String × Option String × Option String :=
  match mappingStep ext ctx.config value with
  | (t0, JSNum.fin q, shouldFormat) =>
    if shouldFormat && !(JSValue.isBooleanVal value) then formatStep ext ctx q
    else (t0, none, none)
  | (t0, JSNum.nan, _) => (t0, none, none)

/-- The `noValue` fallback for an empty text (lines 96-102). -/
def noValueText (cfg : FieldConfig) : String :=
  if truthyStr cfg.noValue then cfg.noValue.getD "" else ""

/-- The display processor closure returned by `getDisplayProcessor`
(lines 49-104). -/
def processValue (ext : Externals) (ctx : DisplayContext)
    (value : JSValue) : DisplayValue :=
  match mappingStep ext ctx.config value with
  | (_, JSNum.fin q, shouldFormat) =>
    let g :=
      if shouldFormat && !(JSValue.isBooleanVal value) then
        formatStep ext ctx q
      else
        match mappingStep ext ctx.config value with
        | (t0, _, _) => (t0, none, none)
    if g.1 ≠ "" then
      { text := g.1, numeric := JSNum.fin q, prefixText := g.2.1,
        suffixText := g.2.2, color := (ctx.scaleFunc (JSNum.fin q)).color }
    else
      { text := noValueText ctx.config, numeric := JSNum.fin q,
        prefixText := g.2.1, suffixText := g.2.2 }
  | (t0, JSNum.nan, _) =>
    { text := if t0 = "" then noValueText ctx.config else t0,
      numeric := JSNum.nan }

/-- `getDisplayProcessor`: returns the processor together with the
caller-visible options after the call (`field.config.unit` may have been
mutated); absent or empty options, or an absent field, yield the
string fallback processor. -/
def getDisplayProcessor (ext : Externals)
    (options : Option DisplayProcessorOptions) :
    (JSValue → DisplayValue) × Option DisplayProcessorOptions :=
  match options with
  | none => (toStringProcessor ext, none)
  | some o =>
    if isEmptyOptions o || o.field.isNone then (toStringProcessor ext, some o)
    else
      match o.field with
      | some f =>
        (processValue ext (buildContext ext o f),
         some { o with field := some (fieldAfter f) })
      | none => (toStringProcessor ext, some o)

/-! ### Gauge component (`packages/grafana-ui/src/components/Gauge/Gauge.tsx`) -/

/-- `ScaleMode` from the shared data package (external to the excerpt). -/
inductive ScaleMode
  | absolute
  | relative
deriving DecidableEq, Repr

/-- A threshold: a value/color breakpoint used to color-code a displayed
metric. -/
structure Threshold where
  value : ℚ
  color : String
deriving DecidableEq, Repr

/-- A threshold scale. -/
structure Scale where
  mode : ScaleMode
  thresholds : List Threshold
deriving DecidableEq, Repr

/-- One entry of the formatted threshold list handed to the plot. -/
structure ColoredStop where
  value : ℚ
  color : String
deriving DecidableEq, Repr

/-- The gauge props (after React applied `defaultProps`, so every member
is present). -/
structure GaugeProps where
  height : ℚ
  maxValue : ℚ
  minValue : ℚ
  scale : Scale
  showThresholdMarkers : Bool
  showThresholdLabels : Bool
  width : ℚ
  value : DisplayValue
  theme : GrafanaTheme
deriving DecidableEq, Repr

/-- The members of `Gauge.defaultProps`. -/
structure GaugeDefaultProps where
  maxValue : ℚ
  minValue : ℚ
  showThresholdMarkers : Bool
  showThresholdLabels : Bool
  scale : Scale
deriving DecidableEq, Repr

/-- `Gauge.defaultProps`: the default scale has an empty threshold list. -/
def gaugeDefaultProps : GaugeDefaultProps :=
  { maxValue := 100, minValue := 0, showThresholdMarkers := true,
    showThresholdLabels := false,
    scale := { mode := ScaleMode.absolute, thresholds := [] } }

/-- `Gauge.getFormattedThresholds`, with the external color lookup
`getColorFromHexRgbOrName` abstracted as `getColor`. Reading
`thresholds[thresholds.length - 1].color` of an empty list throws
(`none`); the dead lookup default in the `index > 0` branch is never
reached because `index - 1` is in bounds there. -/
def getFormattedThresholds (getColor : String → ThemeType → String)
    (props : GaugeProps) : Option (List ColoredStop) :=
  let thresholds := props.scale.thresholds
  match thresholds.getLast? with
  | none => none
  | some lastThreshold =>
    some
      ((thresholds.mapIdx fun index threshold =>
          if index = 0 then
            { value := props.minValue,
              color := getColor threshold.color props.theme.type }
          else
            let previousThreshold :=
              (thresholds.get? (index - 1)).getD { value := 0, color := "" }
            { value := threshold.value,
              color := getColor previousThreshold.color props.theme.type })
        ++ [{ value := props.maxValue,
              color := getColor lastThreshold.color props.theme.type }])

/-- `FONT_SCALE` -/
def FONT_SCALE : ℚ := 1

/-- `Gauge.getFontScale` -/
def getFontScale (length : ℕ) : ℚ :=
  if length > 12 then FONT_SCALE - ((length : ℚ) * 5) / 110
  else FONT_SCALE - ((length : ℚ) * 5) / 101

/-- `GaugeAutoProps` -/
structure GaugeAutoProps where
  titleFontSize : ℚ
  gaugeHeight : ℚ
  showLabel : Bool
deriving DecidableEq, Repr

/-- `calculateGaugeAutoProps` -/
def calculateGaugeAutoProps (width height : ℚ)
    (title : Option String) : GaugeAutoProps :=
  let showLabel := title.isSome
  let titleFontSize := min (width * (15/100) / (3/2)) 20
  let titleHeight := titleFontSize * (3/2)
  let availableHeight := if showLabel then height - titleHeight else height
  let gaugeHeight := min availableHeight width
  { showLabel := showLabel, gaugeHeight := gaugeHeight,
    titleFontSize := titleFontSize }

/-- Modelled from the spec: theme-variant selection helper from the themes
module (not part of the excerpt) — picks the dark or light variant
according to the theme type. -/
def selectThemeVariant (dark light : String) : ThemeType → String
  | ThemeType.dark => dark
  | ThemeType.light => light

/-- Modelled from the spec: `formattedValueToString` from the shared data
package (not part of the excerpt) — joins prefix, text and suffix of a
display value. -/
def formattedValueToString (v : DisplayValue) : String :=
  v.prefixText.getD "" ++ v.text ++ v.suffixText.getD ""

/-- The slice of the jquery-flot options object built by `Gauge.draw`
that the excerpt computes itself. -/
structure PlotOptions where
  gaugeMin : ℚ
  gaugeMax : ℚ
  backgroundColor : String
  gaugeWidth : ℚ
  thresholdValues : List ColoredStop
  showThresholdLabels : Bool
  showThresholdMarkers : Bool
  thresholdMarkersWidth : ℚ
  thresholdLabelFontSize : ℚ
  valueColor : Option String
  valueText : String
  fontSize : ℚ
  fontFamily : String
deriving DecidableEq, Repr

/-- The single data series handed to the plot. -/
structure PlotSeries where
  data : List (ℚ × JSNum)
  label : Option String
deriving DecidableEq, Repr

/-- The error draw raises when the threshold list is empty: reading
`.color` of the undefined last threshold. -/
def gaugeThresholdsError : String :=
  "TypeError: cannot read color of undefined"

/-- `Gauge.draw`: builds the plot options (evaluating
`getFormattedThresholds` there, outside the try/catch) and then invokes
the external charting call `plot` inside try/catch, logging and
swallowing any error it throws. The result is the draw outcome: an
uncaught exception, or normal return with the optional console log. -/
def draw (getColor : String → ThemeType → String)
    (plot : PlotOptions → PlotSeries → Except String Unit)
    (props : GaugeProps) : Except String (Option String) :=
  let autoProps :=
    calculateGaugeAutoProps props.width props.height props.value.title
  let dimension := min props.width autoProps.gaugeHeight
  let backgroundColor :=
    selectThemeVariant props.theme.colorDark8 props.theme.colorGray6
      props.theme.type
  let gaugeWidthReduceFactor : ℚ :=
    if props.showThresholdLabels then 3/2 else 1
  let gaugeWidth := min (dimension / (11/2)) 40 / gaugeWidthReduceFactor
  let thresholdMarkersWidth := gaugeWidth / 5
  let text := formattedValueToString props.value
  -- `text !== null` is always true for a string, so the font scale is
  -- always applied.
  let fontSize := min (dimension / 4) 100 * getFontScale text.length
  let thresholdLabelFontSize := fontSize / (5/2)
  match getFormattedThresholds getColor props with
  | none => Except.error gaugeThresholdsError
  | some stops =>
    let options : PlotOptions :=
      { gaugeMin := props.minValue, gaugeMax := props.maxValue,
        backgroundColor := backgroundColor, gaugeWidth := gaugeWidth,
        thresholdValues := stops,
        showThresholdLabels := props.showThresholdLabels,
        showThresholdMarkers := props.showThresholdMarkers,
        thresholdMarkersWidth := thresholdMarkersWidth,
        thresholdLabelFontSize := thresholdLabelFontSize,
        valueColor := props.value.color, valueText := text,
        fontSize := fontSize,
        fontFamily := props.theme.fontFamilySansSerif }
    let plotSeries : PlotSeries :=
      { data := [(0, props.value.numeric)], label := props.value.title }
    match plot options plotSeries with
    | Except.ok _ => Except.ok none
    | Except.error err => Except.ok (some ("Gauge rendering error " ++ err))

/-! ### Raw InfluxQL editor
(`public/app/plugins/datasource/influxdb/components/RawInfluxQLEditor.tsx`) -/

/-- `ResultFormat` (the three entries of `RESULT_FORMATS`). -/
inductive ResultFormat
  | time_series
  | table
  | logs
deriving DecidableEq, Repr

/-- `DEFAULT_RESULT_FORMAT` -/
def DEFAULT_RESULT_FORMAT : ResultFormat := ResultFormat.time_series

/-- Modelled from the spec: the query object with free-text and alias
fields (`InfluxQuery`, whose type lives outside the excerpt), together
with representative unrelated fields (`refId`, `measurement`, `policy`,
`hide`) used to express frame conditions; `aliasName` models the source
field `alias`, a reserved word here. -/
structure InfluxQuery where
  refId : String := ""
  query : Option String := none
  aliasName : Option String := none
  resultFormat : Option ResultFormat := none
  measurement : Option String := none
  policy : Option String := none
  hide : Option Bool := none
deriving DecidableEq, Repr

/-- `applyDelayedChangesAndRunQuery`: the query emitted on blur — the
input query with only `query` and `alias` replaced by the currently
edited text. -/
def applyDelayedChangesAndRunQuery (query : InfluxQuery)
    (currentQuery currentAlias : Option String) : InfluxQuery :=
  { query with query := currentQuery, aliasName := currentAlias }

/-- The result-format Select's `onChange` handler: emits the input query
with only `resultFormat` replaced. -/
def onResultFormatChange (query : InfluxQuery)
    (v : Option ResultFormat) : InfluxQuery :=
  { query with resultFormat := v }

/-! ### Concrete sample instantiations used by the closed witnesses -/

/-- A concrete instantiation of the external collaborators. -/
def extSample : Externals :=
  { printNum := fun _ => "0"
    lodashToNumberStr := fun _ => JSNum.nan
    getValueFormat := fun _ _ _ _ _ => { text := "42" }
    getScaleCalculator := fun _ _ _ => { color := some "red" }
    getMappedValue := fun _ _ => none
    flog := fun _ => 0 }

/-- A concrete theme. -/
def themeSample : GrafanaTheme := { type := ThemeType.dark }

/-- A concrete number field with a decimals override. -/
def fieldSample : Field :=
  { name := some "f", type := some FieldType.number,
    config := some { decimals := some 0 } }

/-- Concrete processor options carrying a field and a theme. -/
def optionsSample : DisplayProcessorOptions :=
  { field := some fieldSample, isUtc := none, theme := some themeSample }

/-- A concrete time field whose unit is not a date-time format. -/
def timeFieldSample : Field :=
  { name := some "t", type := some FieldType.time,
    config := some { unit := some "ms" } }

/-- Concrete processor options carrying the time field. -/
def timeOptionsSample : DisplayProcessorOptions :=
  { field := some timeFieldSample, isUtc := none, theme := some themeSample }

/-- Concrete gauge props with a single threshold. -/
def gaugePropsSample : GaugeProps :=
  { height := 100, maxValue := 100, minValue := 0,
    scale := { mode := ScaleMode.absolute,
               thresholds := [{ value := 50, color := "green" }] },
    showThresholdMarkers := true, showThresholdLabels := false,
    width := 100,
    value := { text := "42", numeric := JSNum.fin 42 },
    theme := themeSample }

/-- The sample gauge props with the component's default (empty) scale. -/
def gaugeDefaultScaleProps : GaugeProps :=
  { gaugePropsSample with scale := gaugeDefaultProps.scale }

/-! ## Theorems -/

/-- C6: `toNumber` handles arbitrarily-typed raw values: any number is
returned unchanged, `true` yields 1 and `false` yields 0, and the empty
string, `null`, `undefined` and every array yield NaN. -/
theorem toNumber_cases (lodashNum : String → JSNum) :
    (∀ n : JSNum, toNumber lodashNum (JSValue.num n) = n) ∧
    toNumber lodashNum (JSValue.boolean true) = JSNum.fin 1 ∧
    toNumber lodashNum (JSValue.boolean false) = JSNum.fin 0 ∧
    toNumber lodashNum (JSValue.str "") = JSNum.nan ∧
    toNumber lodashNum JSValue.null = JSNum.nan ∧
    toNumber lodashNum JSValue.undefined = JSNum.nan ∧
    ∀ elems : List JSValue,
      toNumber lodashNum (JSValue.arr elems) = JSNum.nan := by
  refine ⟨fun n => rfl, rfl, rfl, ?_, rfl, rfl, fun _ => rfl⟩
  simp [toNumber]

/-- C3: `getDecimalsForValue`'s rounding postcondition: a numeric
`decimalOverride` is returned verbatim with `scaledDecimals` null;
otherwise, for every positive value the returned `decimals` is
non-negative, and it is 0 whenever the value is an integer
(`value % 1 === 0`). -/
theorem getDecimalsForValue_rounding (flog : ℚ → ℤ) (value : ℚ) :
    (∀ d : ℚ, getDecimalsForValue flog value (some d) =
      { decimals := d, scaledDecimals := none }) ∧
    (0 < value →
      0 ≤ (getDecimalsForValue flog value none).decimals ∧
      (value.den = 1 → (getDecimalsForValue flog value none).decimals = 0)) := by
  refine ⟨fun d => rfl, fun _ => ⟨?_, fun hden => ?_⟩⟩
  · simp only [getDecimalsForValue]
    exact le_max_left 0 _
  · simp only [getDecimalsForValue, hden, if_true, if_pos]
    norm_num

/-- Closed witness for C3 at `value = 3` with a trivial log primitive. -/
theorem getDecimalsForValue_rounding_witness :
    getDecimalsForValue (fun _ => 0) 3 (some (1/2)) =
      { decimals := 1/2, scaledDecimals := none } ∧
    0 ≤ (getDecimalsForValue (fun _ => 0) 3 none).decimals ∧
    (getDecimalsForValue (fun _ => 0) 3 none).decimals = 0 := by
  obtain ⟨h1, h2⟩ := getDecimalsForValue_rounding (fun _ => 0) 3
  obtain ⟨h3, h4⟩ := h2 (by norm_num)
  exact ⟨h1 (1/2), h3, h4 (by decide)⟩

/-- C2: every display processor output is the text/numeric/prefix/suffix
tuple of the glossary — a string text, a numeric value, and optional
string prefix/suffix — and the fallback `toStringProcessor` produces the
lodash string and `toNumber` value with no prefix or suffix. -/
theorem displayValue_shape (ext : Externals)
    (options : Option DisplayProcessorOptions) (v : JSValue) :
    (∃ (t : String) (n : JSNum) (p s ttl c : Option String),
        (getDisplayProcessor ext options).1 v =
          { text := t, numeric := n, prefixText := p, suffixText := s,
            title := ttl, color := c }) ∧
    (toStringProcessor ext v).text = lodashToString ext.printNum v ∧
    (toStringProcessor ext v).numeric = toNumber ext.lodashToNumberStr v ∧
    (toStringProcessor ext v).prefixText = none ∧
    (toStringProcessor ext v).suffixText = none :=
  ⟨⟨_, _, _, _, _, _, rfl⟩, rfl, rfl, rfl, rfl⟩

/-- C7: the display processor is deterministic — from fixed options, two
calls on the same input value return equal display values. -/
theorem displayProcessor_deterministic (ext : Externals)
    (options : Option DisplayProcessorOptions) (v₁ v₂ : JSValue)
    (h : v₁ = v₂) :
    (getDisplayProcessor ext options).1 v₁ =
      (getDisplayProcessor ext options).1 v₂ := by
  rw [h]

/-- Closed witness for C7. -/
theorem displayProcessor_deterministic_witness :
    (getDisplayProcessor extSample (some optionsSample)).1 JSValue.null =
      (getDisplayProcessor extSample (some optionsSample)).1 JSValue.null :=
  displayProcessor_deterministic extSample (some optionsSample)
    JSValue.null JSValue.null rfl

/-- C10: the raw InfluxQL editor preserves unrelated query fields — the
result-format change replaces only `resultFormat`, and the blur handler
replaces only `query` and `alias`. -/
theorem rawInfluxQLEditor_preserves_fields (q : InfluxQuery)
    (currentQuery currentAlias : Option String) (v : Option ResultFormat) :
    (onResultFormatChange q v).resultFormat = v ∧
    (onResultFormatChange q v).query = q.query ∧
    (onResultFormatChange q v).aliasName = q.aliasName ∧
    (onResultFormatChange q v).refId = q.refId ∧
    (onResultFormatChange q v).measurement = q.measurement ∧
    (onResultFormatChange q v).policy = q.policy ∧
    (onResultFormatChange q v).hide = q.hide ∧
    (applyDelayedChangesAndRunQuery q currentQuery currentAlias).query =
      currentQuery ∧
    (applyDelayedChangesAndRunQuery q currentQuery currentAlias).aliasName =
      currentAlias ∧
    (applyDelayedChangesAndRunQuery q currentQuery currentAlias).resultFormat =
      q.resultFormat ∧
    (applyDelayedChangesAndRunQuery q currentQuery currentAlias).refId =
      q.refId ∧
    (applyDelayedChangesAndRunQuery q currentQuery currentAlias).measurement =
      q.measurement ∧
    (applyDelayedChangesAndRunQuery q currentQuery currentAlias).policy =
      q.policy ∧
    (applyDelayedChangesAndRunQuery q currentQuery currentAlias).hide =
      q.hide :=
  ⟨rfl, rfl, rfl, rfl, rfl, rfl, rfl, rfl, rfl, rfl, rfl, rfl, rfl, rfl⟩

/-- If the numeric produced by the mapping step is NaN, the raw value's
conversion was already NaN: a mapped value only overrides the numeric
when its own conversion is not NaN. -/
theorem mappingStep_numeric_nan (ext : Externals) (cfg : FieldConfig)
    (v : JSValue) (hnan : (mappingStep ext cfg v).2.1 = JSNum.nan) :
    toNumber ext.lodashToNumberStr v = JSNum.nan := by
  unfold mappingStep at hnan
  rcases hm : cfg.mappings with _ | ms
  · rw [hm] at hnan
    simpa using hnan
  · rw [hm] at hnan
    dsimp only at hnan
    by_cases hl : ms.length > 0
    · rw [if_pos hl] at hnan
      rcases hmv : ext.getMappedValue ms v with _ | mv
      · rw [hmv] at hnan
        simpa using hnan
      · rw [hmv] at hnan
        dsimp only at hnan
        split at hnan
        · exact hnan
        · exact absurd hnan (by assumption)
    · rw [if_neg hl] at hnan
      simpa using hnan

/-- With a field present the display processor is the closure over the
built context. -/
theorem getDisplayProcessor_some_field (ext : Externals)
    (o : DisplayProcessorOptions) (f : Field) (hf : o.field = some f) :
    getDisplayProcessor ext (some o) =
      (processValue ext (buildContext ext o f),
       some { o with field := some (fieldAfter f) }) := by
  have h1 : o.field.isNone = false := by rw [hf]; rfl
  have h2 : isEmptyOptions o = false := by
    unfold isEmptyOptions
    rw [h1]
    rfl
  unfold getDisplayProcessor
  dsimp only
  rw [h2, h1, hf]
  rfl

/-- C1: for a processor built from options carrying a field and a theme,
every input whose conversion to number is not NaN and whose text at the
formatted-text check is non-empty yields a display value carrying the
threshold color computed by the scale calculator from the display value's
numeric. -/
theorem getDisplayProcessor_scale_color (ext : Externals)
    (o : DisplayProcessorOptions) (f : Field) (th : GrafanaTheme)
    (hf : o.field = some f) (_hth : o.theme = some th) (v : JSValue)
    (hnum : toNumber ext.lodashToNumberStr v ≠ JSNum.nan)
    (htext : (textAtScaleCheck ext (buildContext ext o f) v).1 ≠ "") :
    ((getDisplayProcessor ext (some o)).1 v).color =
      ((buildContext ext o f).scaleFunc
        (((getDisplayProcessor ext (some o)).1 v).numeric)).color := by
  rw [getDisplayProcessor_some_field ext o f hf]
  dsimp only
  rcases hm : mappingStep ext (buildContext ext o f).config v with ⟨t0, n, sf⟩
  cases n with
  | nan =>
    exact absurd (mappingStep_numeric_nan ext (buildContext ext o f).config v
      (by rw [hm])) hnum
  | fin q =>
    simp only [textAtScaleCheck, hm] at htext
    simp only [processValue, hm]
    rw [if_pos htext]

/-- Closed witness for C1 at the numeric value 5. -/
theorem getDisplayProcessor_scale_color_witness :
    toNumber extSample.lodashToNumberStr (JSValue.num (JSNum.fin 5)) ≠
      JSNum.nan ∧
    ((getDisplayProcessor extSample (some optionsSample)).1
        (JSValue.num (JSNum.fin 5))).color =
      ((buildContext extSample optionsSample fieldSample).scaleFunc
        (((getDisplayProcessor extSample (some optionsSample)).1
            (JSValue.num (JSNum.fin 5))).numeric)).color :=
  ⟨by decide,
   getDisplayProcessor_scale_color extSample optionsSample fieldSample
     themeSample rfl rfl (JSValue.num (JSNum.fin 5)) (by decide) (by decide)⟩

/-- C9: `getDisplayProcessor` mutates its input: for a time field whose
`config.unit` is neither a recognized date-time format nor a string
starting with `time:`, the caller's `field.config.unit` is overwritten
with `time:` plus the default date-time format and every other config
field is unchanged; for a non-time field the config is not modified. -/
theorem getDisplayProcessor_time_unit_frame (ext : Externals)
    (o : DisplayProcessorOptions) (f : Field) (cfg : FieldConfig)
    (hf : o.field = some f) (hc : f.config = some cfg) :
    ∃ o2 f2, (getDisplayProcessor ext (some o)).2 = some o2 ∧
      o2.field = some f2 ∧
      (f.type = some FieldType.time →
        timeFormats (cfg.unit.getD "") = false →
        (cfg.unit.getD "").startsWith "time:" = false →
        f2.config = some { cfg with
          unit := some ("time:" ++ DEFAULT_DATE_TIME_FORMAT) }) ∧
      (f.type ≠ some FieldType.time → f2.config = some cfg) := by
  rw [getDisplayProcessor_some_field ext o f hf]
  refine ⟨_, fieldAfter f, rfl, rfl, fun htime hfmt hpre => ?_, fun hnt => ?_⟩
  · unfold fieldAfter configAfter
    rw [hc]
    simp only [Option.map_some', Option.getD_some, if_pos htime,
      Option.some.injEq]
    unfold fixTimeUnit
    rw [hfmt, hpre]
    simp
  · unfold fieldAfter configAfter
    rw [hc]
    simp only [Option.map_some', Option.getD_some, if_neg hnt]

/-- Closed witness for C9: a time field with unit `ms` gets the default
`time:` unit. -/
theorem getDisplayProcessor_time_unit_frame_witness :
    ∃ o2 f2,
      (getDisplayProcessor extSample (some timeOptionsSample)).2 = some o2 ∧
      o2.field = some f2 ∧
      (timeFieldSample.type = some FieldType.time →
        timeFormats ((({ unit := some "ms" } : FieldConfig)).unit.getD "") =
          false →
        ((({ unit := some "ms" } : FieldConfig)).unit.getD "").startsWith
          "time:" = false →
        f2.config = some { ({ unit := some "ms" } : FieldConfig) with
          unit := some ("time:" ++ DEFAULT_DATE_TIME_FORMAT) }) ∧
      (timeFieldSample.type ≠ some FieldType.time →
        f2.config = some ({ unit := some "ms" } : FieldConfig)) :=
  getDisplayProcessor_time_unit_frame extSample timeOptionsSample
    timeFieldSample { unit := some "ms" } rfl rfl

/-- The indexed previous-threshold lookup equals pairing each threshold
with its predecessor: mapping over `rest` while looking up index `i` in
`full` is zipping `rest` with `full`, whenever `full` is long enough. -/
theorem mapIdx_lookup_eq_zip (getColor : String → ThemeType → String)
    (θ : ThemeType) (d : Threshold) :
    ∀ rest full : List Threshold, rest.length ≤ full.length →
      (rest.mapIdx fun i t =>
        ColoredStop.mk t.value (getColor ((full.get? i).getD d).color θ)) =
      (rest.zip full).map fun p =>
        ColoredStop.mk p.1.value (getColor p.2.color θ)
  | [], _, _ => by simp
  | r :: rs, [], h => by simp at h
  | r :: rs, f0 :: fs, h => by
    rw [List.mapIdx_cons, List.zip_cons_cons, List.map_cons]
    simp only [List.get?_cons_zero, List.get?_cons_succ, Option.getD_some]
    rw [mapIdx_lookup_eq_zip getColor θ d rs fs (by simpa using h)]

/-- `getFormattedThresholds` on a cons-shaped threshold list, in closed
form: the minValue stop with the head's color, each remaining threshold's
value paired with its predecessor's color (the zip of the tail with the
whole list), and the maxValue stop with the last threshold's color. -/
theorem getFormattedThresholds_cons (getColor : String → ThemeType → String)
    (props : GaugeProps) (t0 : Threshold) (rest : List Threshold)
    (hts : props.scale.thresholds = t0 :: rest) :
    getFormattedThresholds getColor props =
      some
        (ColoredStop.mk props.minValue (getColor t0.color props.theme.type)
          :: ((rest.zip (t0 :: rest)).map fun p =>
                ColoredStop.mk p.1.value (getColor p.2.color props.theme.type))
          ++ [ColoredStop.mk props.maxValue
                (getColor
                  ((t0 :: rest).getLast (List.cons_ne_nil t0 rest)).color
                  props.theme.type)]) := by
  unfold getFormattedThresholds
  rw [hts]
  dsimp only
  rw [List.getLast?_eq_getLast _ (List.cons_ne_nil t0 rest)]
  dsimp only
  rw [List.mapIdx_cons, List.cons_append]
  rw [← mapIdx_lookup_eq_zip getColor props.theme.type
        { value := 0, color := "" } rest (t0 :: rest) (by simp)]
  simp

/-- C4: for a non-empty threshold list, `Gauge.getFormattedThresholds`
returns exactly `thresholds.length + 1` value/color breakpoints: minValue
with the first threshold's color, each subsequent threshold's value with
its predecessor's color, and maxValue with the last threshold's color. -/
theorem gauge_getFormattedThresholds_breakpoints
    (getColor : String → ThemeType → String) (props : GaugeProps)
    (h : props.scale.thresholds ≠ []) :
    getFormattedThresholds getColor props =
      some
        ({ value := props.minValue,
           color := getColor ((props.scale.thresholds.head h).color)
             props.theme.type }
          :: ((props.scale.thresholds.tail.zip props.scale.thresholds).map
                fun p => { value := p.1.value,
                           color := getColor p.2.color props.theme.type })
          ++ [{ value := props.maxValue,
                color := getColor ((props.scale.thresholds.getLast h).color)
                  props.theme.type }]) ∧
    ∀ l, getFormattedThresholds getColor props = some l →
      l.length = props.scale.thresholds.length + 1 := by
  obtain ⟨t0, rest, hts⟩ := List.exists_cons_of_ne_nil h
  have hhead : props.scale.thresholds.head h = t0 := by
    apply Option.some_inj.mp
    rw [← List.head?_eq_head h, hts]
    rfl
  have hlast : props.scale.thresholds.getLast h =
      (t0 :: rest).getLast (List.cons_ne_nil t0 rest) := by
    apply Option.some_inj.mp
    rw [← List.getLast?_eq_getLast _ h, hts,
      List.getLast?_eq_getLast _ (List.cons_ne_nil t0 rest)]
  constructor
  · rw [hhead, hlast, hts, getFormattedThresholds_cons getColor props t0 rest hts]
    simp
  · intro l hl
    rw [getFormattedThresholds_cons getColor props t0 rest hts] at hl
    cases Option.some_inj.mp hl.symm
    simp [hts, Nat.min_def]

/-- Closed witness for C4 on a one-threshold scale. -/
theorem gauge_getFormattedThresholds_breakpoints_witness :
    getFormattedThresholds (fun c _ => c) gaugePropsSample =
      some [{ value := 0, color := "green" },
            { value := 100, color := "green" }] ∧
    ∀ l, getFormattedThresholds (fun c _ => c) gaugePropsSample = some l →
      l.length = gaugePropsSample.scale.thresholds.length + 1 := by
  have H := gauge_getFormattedThresholds_breakpoints (fun c _ => c)
    gaugePropsSample (List.cons_ne_nil _ _)
  refine ⟨?_, H.2⟩
  rw [H.1]
  rfl

/-- C5: any exception thrown by the charting call inside `Gauge.draw` is
caught, logged and swallowed — whenever the options were built
successfully, `draw` returns normally, and a throwing charting call
produces the logged rendering error instead of propagating. -/
theorem gauge_draw_swallows_plot_errors
    (getColor : String → ThemeType → String)
    (plot : PlotOptions → PlotSeries → Except String Unit)
    (props : GaugeProps) (stops : List ColoredStop)
    (hstops : getFormattedThresholds getColor props = some stops) :
    (∃ logged : Option String,
        draw getColor plot props = Except.ok logged) ∧
    ∀ err : String,
      (∀ o s, plot o s = Except.error err) →
      draw getColor plot props =
        Except.ok (some ("Gauge rendering error " ++ err)) := by
  unfold draw
  rw [hstops]
  dsimp only
  constructor
  · split
    · exact ⟨none, rfl⟩
    · exact ⟨_, rfl⟩
  · intro err herr
    rw [herr]

/-- Closed witness for C5: a throwing charting call is logged and
swallowed. -/
theorem gauge_draw_swallows_plot_errors_witness :
    (∃ logged : Option String,
        draw (fun c _ => c) (fun _ _ => Except.error "boom")
          gaugePropsSample = Except.ok logged) ∧
    ∀ err : String,
      (∀ o s, (fun _ _ => Except.error "boom" :
          PlotOptions → PlotSeries → Except String Unit) o s =
        Except.error err) →
      draw (fun c _ => c) (fun _ _ => Except.error "boom") gaugePropsSample =
        Except.ok (some ("Gauge rendering error " ++ err)) := by
  exact gauge_draw_swallows_plot_errors (fun c _ => c)
    (fun _ _ => Except.error "boom") gaugePropsSample
    [{ value := 0, color := "green" }, { value := 100, color := "green" }]
    (by rfl)

/-- C8: `Gauge.getFormattedThresholds` requires a non-empty threshold
list: with the component's default scale (empty thresholds) it reads the
color of an undefined last threshold and throws, and since the list is
built while constructing the plot options — outside the try/catch in
`draw` — the exception propagates out of `draw` uncaught. -/
theorem gauge_draw_default_scale_throws
    (getColor : String → ThemeType → String)
    (plot : PlotOptions → PlotSeries → Except String Unit)
    (props : GaugeProps) (hscale : props.scale = gaugeDefaultProps.scale) :
    getFormattedThresholds getColor props = none ∧
    draw getColor plot props = Except.error gaugeThresholdsError := by
  have h1 : getFormattedThresholds getColor props = none := by
    unfold getFormattedThresholds
    rw [hscale]
    rfl
  refine ⟨h1, ?_⟩
  unfold draw
  rw [h1]

/-- Closed witness for C8 on concrete props carrying the default scale:
the throw escapes `draw` for every charting call, even one that never
throws. -/
theorem gauge_draw_default_scale_throws_witness :
    getFormattedThresholds (fun c _ => c) gaugeDefaultScaleProps = none ∧
    draw (fun c _ => c) (fun _ _ => Except.ok ()) gaugeDefaultScaleProps =
      Except.error gaugeThresholdsError :=
  gauge_draw_default_scale_throws (fun c _ => c) (fun _ _ => Except.ok ())
    gaugeDefaultScaleProps rfl

end Grafana
